import Mathlib

/-!
Verification of the DSS template processing pipeline (`utils.py`).

The Python source is shallowly embedded: a pandas `DataFrame` becomes a
`DF` (a list of column names plus rows of loosely typed `Cell` values),
a workbook becomes a list of named sheets, Python dictionaries become
insertion-ordered association lists with in-place update, and each
stage of `process_template` becomes a Lean function.  Fallible Python
operations (uncaught exceptions) are embedded with `Except`; the broad
`try/except` around the DSS extraction stage is embedded by the wrapper
`dssStage`, whose error branch carries the replacements accumulated at
the moment of failure, exactly as the mutated Python dict would.

Numeric spreadsheet cells are embedded as integers (the identifiers the
pipeline coerces are whole numbers; the `int(float(.))` truncation is
therefore the identity on them), and `str` of a numeric cell is rendered
without a decimal point; no claim below depends on the decimal
rendering.  Python `float(...)`/`int(...)` string parsing is embedded
for the literal forms the pipeline can meet (optional sign, digits,
optional fraction), without exponent/inf/nan forms, which no claim uses.
-/

deriving instance DecidableEq for Except

namespace DSS

/-- A spreadsheet cell as pandas hands it to the pipeline: missing/NaN,
a boolean, a numeric value, or a string. -/
inductive Cell where
  | na : Cell
  | boolean : Bool → Cell
  | intVal : Int → Cell
  | strVal : String → Cell
  deriving DecidableEq

/-- A loaded worksheet: named columns and rows of cells (row `i`,
column `c` is the cell at the index of `c` in `columns`). -/
structure DF where
  columns : List String
  rows : List (List Cell)
  deriving DecidableEq

/-- A workbook: sheets in file order, by name. -/
abbrev Workbook := List (String × DF)

/-- The replacements dictionary: insertion-ordered, keys unique. -/
abbrev Reps := List (String × String)

/-- Whitespace characters removed by Python `str.strip()`. -/
def isWS (c : Char) : Bool :=
  c = ' ' || c = '\t' || c = '\n' || c = '\r' || c.toNat = 11 || c.toNat = 12

/-- Python `str.strip()` on a character list. -/
def stripChars (l : List Char) : List Char :=
  ((l.dropWhile isWS).reverse.dropWhile isWS).reverse

/-- Python `str.strip()`. -/
def pyStrip (s : String) : String := ⟨stripChars s.data⟩

/-- ASCII lower-casing of one character (Python `str.lower()` on the
ASCII headers and sheet names the pipeline handles). -/
def lowerChar (c : Char) : Char :=
  if 'A' ≤ c ∧ c ≤ 'Z' then Char.ofNat (c.toNat + 32) else c

/-- Python `str.lower()`. -/
def pyLower (s : String) : String := ⟨s.data.map lowerChar⟩

/-- `name.lower().strip()`, used for sheet-name comparison. -/
def lowerStrip (s : String) : String := pyStrip (pyLower s)

/-- `name.lower().strip().replace(' ', '').replace('_', '')`: the header
normalization of `find_column`. -/
def normName (s : String) : String :=
  ⟨(stripChars (pyLower s).data).filter (fun c => !(c == ' ' || c == '_'))⟩

/-- Python dict assignment `d[k] = v`: update in place if the key
exists (keeping its position), else append. -/
def pyDictInsert {α : Type} (d : List (String × α)) (k : String) (v : α) :
    List (String × α) :=
  if d.any (fun p => p.1 == k) then d.map (fun p => if p.1 == k then (k, v) else p)
  else d ++ [(k, v)]

/-- Python dict lookup (keys are unique, so the first hit is the value). -/
def pyLookup {α : Type} (d : List (String × α)) (k : String) : Option α :=
  (d.find? (fun p => p.1 == k)).map (fun p => p.2)

/-- The dict comprehension of `find_column`:
`{normName(col): col for col in df.columns}` — a later column whose
normalized name collides overwrites an earlier one. -/
def colDict (cols : List String) : List (String × String) :=
  cols.foldl (fun d c => pyDictInsert d (normName c) c) []

/-- `find_column(df, possible_names)` from `utils.py`: `None`/empty
table gives no column; otherwise the candidates are tried in order
against the normalized-header dictionary. -/
def find_column (df : Option DF) (names : List String) : Option String :=
  match df with
  | none => none
  | some t =>
    if t.rows.isEmpty || t.columns.isEmpty then none
    else names.findSome? (fun n => pyLookup (colDict t.columns) (normName n))

/-- The cell of `row` under column label `c` (first matching label, NaN
if the label is missing or the row is short — an indexing failure the
callers' `except` arms would swallow). -/
def rowCell (cols : List String) (row : List Cell) (c : String) : Cell :=
  match cols.findIdx? (fun x => x == c) with
  | some i => row.getD i Cell.na
  | none => Cell.na

/-- `safe_get_value(df, column_name, row_idx, default)` from `utils.py`. -/
def safe_get_value (df : Option DF) (col : Option String) (rowIdx : Nat)
    (dflt : Cell) : Cell :=
  match df, col with
  | some t, some c =>
    if t.columns.contains c then
      if t.rows.length ≤ rowIdx then dflt
      else
        let v := rowCell t.columns (t.rows.getD rowIdx []) c
        if v = Cell.na then dflt else v
    else dflt
  | _, _ => dflt

/-- `safe_load_sheet(excel_file, sheet_name, alternative_names)` from
`utils.py`, on an already opened workbook: exact name, then
case/strip-insensitive canonical name, then each alternative in order. -/
def safe_load_sheet (wb : Workbook) (name : String) (alts : List String) :
    Option DF :=
  match wb.find? (fun p => p.1 == name) with
  | some p => some p.2
  | none =>
    match wb.find? (fun p => lowerStrip p.1 == lowerStrip name) with
    | some p => some p.2
    | none =>
      alts.findSome? (fun a =>
        (wb.find? (fun p => lowerStrip p.1 == lowerStrip a)).map (fun p => p.2))

/-- Python `str(v)` on a cell (`str(nan)` is `"nan"`; numeric cells are
rendered without a decimal point, see the file comment). -/
def pyStr : Cell → String
  | Cell.na => "nan"
  | Cell.boolean b => if b then "True" else "False"
  | Cell.intVal n => toString n
  | Cell.strVal s => s

/-- `pd.notna(v)`. -/
def notna (c : Cell) : Bool := c != Cell.na

/-- Python truthiness of a cell value (`if enb_val:`). -/
def pyTruthy : Cell → Bool
  | Cell.na => true
  | Cell.boolean b => b
  | Cell.intVal n => n != 0
  | Cell.strVal s => s != ""

/-- The elementwise comparison `df[col] == True` (Python `1 == True`). -/
def cellEqTrue : Cell → Bool
  | Cell.boolean b => b
  | Cell.intVal n => n == 1
  | _ => false

/-- The elementwise comparison of a cell with a Python string. -/
def cellEqStr (c : Cell) (s : String) : Bool :=
  match c with
  | Cell.strVal t => t == s
  | _ => false

/-- ASCII digit test. -/
def isDigit (c : Char) : Bool := decide ('0' ≤ c ∧ c ≤ '9')

/-- Value of a digit run. -/
def digitsVal (l : List Char) : Nat :=
  l.foldl (fun a c => 10 * a + (c.toNat - '0'.toNat)) 0

/-- Python `int(float(s))` on the string forms the pipeline can meet:
optional surrounding whitespace, optional sign, digits with an optional
fraction part; truncation is toward zero.  `none` models the raised
`ValueError` (in particular `float('')` fails). -/
def parseFloatTrunc (s : String) : Option Int :=
  let l := stripChars s.data
  let signed : Bool × List Char :=
    match l with
    | '-' :: r => (true, r)
    | '+' :: r => (false, r)
    | r => (false, r)
  let ds := signed.2.takeWhile isDigit
  let rest := signed.2.drop ds.length
  let valid : Bool :=
    match rest with
    | [] => !ds.isEmpty
    | '.' :: fs => (!ds.isEmpty || !fs.isEmpty) && fs.all isDigit
    | _ => false
  if valid then
    let v : Int := Int.ofNat (digitsVal ds)
    some (if signed.1 then -v else v)
  else none

/-- Python `int(s)` on a string: only an optionally signed run of
digits (with surrounding whitespace) parses; `int("100.5")` raises. -/
def parseIntStrict (s : String) : Option Int :=
  let l := stripChars s.data
  let signed : Bool × List Char :=
    match l with
    | '-' :: r => (true, r)
    | '+' :: r => (false, r)
    | r => (false, r)
  if !signed.2.isEmpty && signed.2.all isDigit then
    let v : Int := Int.ofNat (digitsVal signed.2)
    some (if signed.1 then -v else v)
  else none

/-- `int(float(v))` on a raw cell; `none` models the raised exception
(`int(float(nan))` raises, `float('')` raises). -/
def pyIntFloat : Cell → Option Int
  | Cell.na => none
  | Cell.boolean b => some (if b then 1 else 0)
  | Cell.intVal n => some n
  | Cell.strVal s => parseFloatTrunc s

/-- `int(v)` on a raw cell; `none` models the raised exception. -/
def pyInt : Cell → Option Int
  | Cell.na => none
  | Cell.boolean b => some (if b then 1 else 0)
  | Cell.intVal n => some n
  | Cell.strVal s => parseIntStrict s

/-- Match of `re` pattern `_(\d+)[ABC]_` anchored at the head of the
list: an underscore, a non-empty greedy digit run (no shorter run can
match, as `[ABC]` accepts no digit), one of `A`,`B`,`C`, an underscore.
Returns the digit group. -/
def lteBandAt (l : List Char) : Option (List Char) :=
  match l with
  | '_' :: rest =>
    let ds := rest.takeWhile isDigit
    if ds.isEmpty then none
    else
      match rest.drop ds.length with
      | c :: '_' :: _ => if c = 'A' ∨ c = 'B' ∨ c = 'C' then some ds else none
      | _ => none
  | _ => none

/-- `re.search(r'_(\d+)[ABC]_', s)`: leftmost match of `lteBandAt`. -/
def searchLTEBand : List Char → Option (List Char)
  | [] => none
  | c :: rest =>
    match lteBandAt (c :: rest) with
    | some g => some g
    | none => searchLTEBand rest

/-- Match of `re` pattern `_(N\d{3})[ABC]_` anchored at the head:
underscore, `N`, exactly three digits, one of `A`,`B`,`C`, underscore.
Returns the group `N` plus the three digits. -/
def nrBandAt (l : List Char) : Option (List Char) :=
  match l with
  | '_' :: 'N' :: d1 :: d2 :: d3 :: c :: '_' :: _ =>
    if isDigit d1 && isDigit d2 && isDigit d3 then
      if c = 'A' ∨ c = 'B' ∨ c = 'C' then some ['N', d1, d2, d3] else none
    else none
  | _ => none

/-- `re.search(r'_(N\d{3})[ABC]_', s)`: leftmost match of `nrBandAt`. -/
def searchNRBand : List Char → Option (List Char)
  | [] => none
  | c :: rest =>
    match nrBandAt (c :: rest) with
    | some g => some g
    | none => searchNRBand rest

/-! ## The template filler

`str.count` and `str.replace` scan left to right over non-overlapping
occurrences; both are embedded with explicit fuel (one unit per
consumed character) so that they compute by kernel reduction.  All
placeholder keys of the pipeline are non-empty; on an empty needle the
embedding leaves the text unchanged. -/

/-- Fuelled core of Python `text.count(pat)` (non-overlapping). -/
def countOccGo (pat : List Char) : Nat → List Char → Nat
  | _, [] => 0
  | 0, _ => 0
  | f + 1, c :: rest =>
    if !pat.isEmpty && pat.isPrefixOf (c :: rest) then
      1 + countOccGo pat f (rest.drop (pat.length - 1))
    else countOccGo pat f rest

/-- Python `text.count(pat)` for a non-empty needle. -/
def countOcc (pat s : List Char) : Nat := countOccGo pat s.length s

/-- Fuelled core of Python `text.replace(pat, rep)`. -/
def replaceAllGo (pat rep : List Char) : Nat → List Char → List Char
  | _, [] => []
  | 0, s => s
  | f + 1, c :: rest =>
    if !pat.isEmpty && pat.isPrefixOf (c :: rest) then
      rep ++ replaceAllGo pat rep f (rest.drop (pat.length - 1))
    else c :: replaceAllGo pat rep f rest

/-- Python `text.replace(pat, rep)` for a non-empty needle. -/
def replaceAll (pat rep s : List Char) : List Char := replaceAllGo pat rep s.length s

/-- Stable insertion of one entry into a length-descending run:
`sorted(items, key=lambda x: len(x[0]), reverse=True)` keeps
equal-length keys in insertion order, and the insertion recursion below
feeds entries back-to-front, so an entry goes in front of an
equal-length one already placed. -/
def insertDescLen (x : List Char × List Char) :
    List (List Char × List Char) → List (List Char × List Char)
  | [] => [x]
  | y :: ys =>
    if y.1.length ≤ x.1.length then x :: y :: ys else y :: insertDescLen x ys

/-- `sorted(replacements.items(), key=lambda x: len(x[0]), reverse=True)`. -/
def sortDescLen : List (List Char × List Char) → List (List Char × List Char)
  | [] => []
  | a :: l => insertDescLen a (sortDescLen l)

/-- One iteration of the replacement loop: count occurrences in the
current text, and replace (recording the count) only when positive. -/
def fillStep (st : List Char × List (List Char × Nat)) (kv : List Char × List Char) :
    List Char × List (List Char × Nat) :=
  let c := countOcc kv.1 st.1
  if 0 < c then (replaceAll kv.1 kv.2 st.1, st.2 ++ [(kv.1, c)]) else st

/-- The full replacement loop of `process_template` (lines 246-252):
longest-key-first, with per-key occurrence counts. -/
def processReplace (m : List (List Char × List Char)) (t : List Char) :
    List Char × List (List Char × Nat) :=
  (sortDescLen m).foldl fillStep (t, [])

/-- The filled text alone. -/
def fillText (m : List (List Char × List Char)) (t : List Char) : List Char :=
  (processReplace m t).1

/-- The replacement loop lifted to `String` keys and values. -/
def fillAll (reps : Reps) (t : String) : String × List (String × Nat) :=
  let r := processReplace (reps.map (fun kv => (kv.1.data, kv.2.data))) t.data
  (⟨r.1⟩, r.2.map (fun kc => (⟨kc.1⟩, kc.2)))

/-! ## Sorting rows (`sort_values`) -/

/-- Lexicographic comparison of character lists by code point — the
Python `≤` on strings. -/
def charsLE : List Char → List Char → Bool
  | [], _ => true
  | _ :: _, [] => false
  | a :: as, b :: bs =>
    if a.toNat < b.toNat then true
    else if b.toNat < a.toNat then false
    else charsLE as bs

/-- Rank of a cell kind under the sort order: NaN sorts last
(`na_position='last'`); the pipeline sorts homogeneous identifier
columns, the cross-kind order is the fixed tie-break of the model. -/
def cellRank : Cell → Nat
  | Cell.boolean _ => 0
  | Cell.intVal _ => 1
  | Cell.strVal _ => 2
  | Cell.na => 3

/-- Same-kind payload comparison: booleans `False < True`, integers and
strings by their usual (for strings: code point, as in Python) order. -/
def cellPayLE : Cell → Cell → Bool
  | Cell.boolean a, Cell.boolean b => !a || b
  | Cell.intVal a, Cell.intVal b => decide (a ≤ b)
  | Cell.strVal a, Cell.strVal b => charsLE a.data b.data
  | _, _ => true

/-- Total order on cells used by the embedded `sort_values`. -/
def cellLE (a b : Cell) : Bool :=
  if cellRank a < cellRank b then true
  else if cellRank b < cellRank a then false
  else cellPayLE a b

/-- Row comparison by the cell in the sort column. -/
def rowLE (cols : List String) (nc : String) (x y : List Cell) : Prop :=
  cellLE (rowCell cols x nc) (rowCell cols y nc) = true

instance (cols : List String) (nc : String) : DecidableRel (rowLE cols nc) :=
  fun x y => instDecidableEqBool (cellLE (rowCell cols x nc) (rowCell cols y nc)) true

/-- `df.sort_values(col)`: ascending stable sort by the cell in `col`. -/
def sortByCol (t : DF) (nc : String) (rows : List (List Cell)) : List (List Cell) :=
  List.insertionSort (rowLE t.columns nc) rows

/-! ## Node/Cell extractor -/

/-- Python truthiness of a resolved column name (`if cabinet_col:` —
`None` and the empty string are falsy). -/
def truthyCol : Option String → Option String
  | some c => if c = "" then none else some c
  | none => none

/-- `safe_get_value(pd.DataFrame([row]), col, 0)` with default `''`, as
the primary-node stage reads each field. -/
def sgvRow (cols : List String) (row : List Cell) (c : Option String) : Cell :=
  safe_get_value (some ⟨cols, [row]⟩) c 0 (Cell.strVal "")

/-- Primary-node selection (lines 110-126): the first row whose
cabinet-control cell compares equal to `True`, else the first row whose
node-name field is truthy and non-blank after `str(...).strip()`. -/
def selectPrimary (t : DF) (cab ename : Option String) : Option (List Cell) :=
  let p1 : Option (List Cell) :=
    match truthyCol cab with
    | some c => (t.rows.filter (fun r => cellEqTrue (rowCell t.columns r c))).head?
    | none => none
  match p1 with
  | some r => some r
  | none =>
    match truthyCol ename with
    | some c =>
      t.rows.find? (fun r =>
        let v := sgvRow t.columns r (some c)
        pyTruthy v && !(pyStrip (pyStr v) == ""))
    | none => none

/-- The guarded coercion `if pd.notna(v): reps[k] = str(int(float(v))).strip()`
of lines 135-137 and 143-145.  The coercion is NOT wrapped in any
`try`, so its failure is an uncaught `ValueError` (`Except.error`). -/
def coercePrimary (reps : Reps) (k : String) (v : Cell) : Except String Reps :=
  if notna v then
    match pyIntFloat v with
    | some n => Except.ok (pyDictInsert reps k (pyStrip (toString n)))
    | none => Except.error "could not convert string to float"
  else Except.ok reps

/-- Lines 128-145: derive the primary-node placeholders from the
selected row. -/
def emitPrimary (cols : List String) (row : List Cell)
    (ename eid gname gid : Option String) : Except String Reps :=
  let site := pyStrip (pyStr (sgvRow cols row ename))
  let r1 : Reps :=
    if site ≠ "" then
      pyDictInsert (pyDictInsert [] "xxMMBB_Primary_Node_Namexx" site) "xxLTE_Site_IDxx" site
    else []
  match coercePrimary r1 "xxLTE_eNBIDxx" (sgvRow cols row eid) with
  | Except.error m => Except.error m
  | Except.ok r2 =>
    let g := pyStrip (pyStr (sgvRow cols row gname))
    let r3 := if g ≠ "" then pyDictInsert r2 "xx5G_NR_Node_Namexx" g else r2
    coercePrimary r3 "xx5G_NR_gNBIDxx" (sgvRow cols row gid)

/-- Lines 103-145: the whole primary-node stage. -/
def primaryStage (mm : Option DF) : Except String Reps :=
  match mm with
  | none => Except.ok []
  | some t =>
    let cab := find_column (some t) ["Cabinet Controlling DUL", "CabinetControllingDUL"]
    let ename := find_column (some t) ["eNodeB Name", "eNodeBName"]
    let eid := find_column (some t) ["eNBId", "eNBID"]
    let gname := find_column (some t) ["gNodeB Name", "gNodeBName"]
    let gid := find_column (some t) ["gNBId", "gNBID"]
    match selectPrimary t cab ename with
    | none => Except.ok []
    | some row => emitPrimary t.columns row ename eid gname gid

/-- An error inside the DSS stage carries the replacements accumulated
before the exception (the Python dict is mutated in place) and the
exception text. -/
abbrev DssErr := Reps × String

/-- The qualifying rows of the `5G Info` sheet (lines 159-163): node
name equal to the resolved one, cross-reference not NaN and not the
literal string `NO`. -/
def qualifying (t : DF) (gname gc dc : String) : List (List Cell) :=
  t.rows.filter (fun r =>
    cellEqStr (rowCell t.columns r gc) gname
    && notna (rowCell t.columns r dc)
    && !(cellEqStr (rowCell t.columns r dc) "NO"))

/-- Lines 159-168: sort the qualifying rows ascending by the cell
identifier column and take positions 0, 1, 2 as alpha/beta/gamma;
`none` when fewer than three qualify. -/
def selectTriple (t : DF) (gname gc dc nc : String) :
    Option (List Cell × List Cell × List Cell) :=
  match sortByCol t nc (qualifying t gname gc dc) with
  | a :: b :: g :: _ => some (a, b, g)
  | _ => none

/-- `reps[k] = str(int(v))` where `int(v)` may raise. -/
def coerceInsert (reps : Reps) (k : String) (v : Cell) : Except DssErr Reps :=
  match pyInt v with
  | some n => Except.ok (pyDictInsert reps k (toString n))
  | none => Except.error (reps, "invalid literal for int()")

/-- Lines 185-188: the per-cell numeric local IDs, only when the
`cellLocalId` column resolved (truthy). -/
def emitLocalIds (reps : Reps) (cols : List String) (a b g : List Cell)
    (clid : Option String) : Except DssErr Reps :=
  match truthyCol clid with
  | none => Except.ok reps
  | some c => do
    let r1 ← coerceInsert reps "xx5G_celllocalidAxx" (rowCell cols a c)
    let r2 ← coerceInsert r1 "xx5G_celllocalidBxx" (rowCell cols b c)
    coerceInsert r2 "xx5G_celllocalidCxx" (rowCell cols g c)

/-- Lines 190-193: the sector-carrier strings, only when the
`NRSectorCarrier` column resolved (truthy). -/
def emitSectors (reps : Reps) (cols : List String) (a b g : List Cell)
    (nrsec : Option String) : Reps :=
  match truthyCol nrsec with
  | none => reps
  | some c =>
    pyDictInsert (pyDictInsert (pyDictInsert reps
      "xx5G_NRSectorCarrier_Alphaxx" (pyStr (rowCell cols a c)))
      "xx5G_NRSectorCarrier_Betaxx" (pyStr (rowCell cols b c)))
      "xx5G_NRSectorCarrier_Gammaxx" (pyStr (rowCell cols g c))

/-- Lines 203-212: the synthesized site/band keys (`N00X*` keys are
emitted unconditionally, the site-prefixed ones only when
`xxLTE_Site_IDxx` is already present). -/
def emitSiteBand (reps : Reps) (nband : String) : Reps :=
  let r1 : Reps :=
    match pyLookup reps "xxLTE_Site_IDxx" with
    | some site =>
      pyDictInsert (pyDictInsert (pyDictInsert (pyDictInsert reps
        "xxMMBB_Primary_Node_Namexx_N00XA_1" (site ++ "_" ++ nband ++ "A_1"))
        "xxMMBB_Primary_Node_Namexx_N00XB_1" (site ++ "_" ++ nband ++ "B_1"))
        "xxMMBB_Primary_Node_Namexx_N00XC_1" (site ++ "_" ++ nband ++ "C_1"))
        "xxLTE_Site_IDxx_X*" (site ++ "_X*")
    | none => reps
  pyDictInsert (pyDictInsert (pyDictInsert r1
    "N00XA" (nband ++ "A")) "N00XB" (nband ++ "B")) "N00XC" (nband ++ "C")

/-- `rows.iloc[0][c]` with coercion: raises `IndexError` on an empty
selection (as `lte_beta_row.iloc[0]` does at line 230 when the beta
cross-reference matched no row). -/
def ilocCoerce (reps : Reps) (k : String) (rows : List (List Cell))
    (cols : List String) (c : String) : Except DssErr Reps :=
  match rows with
  | [] => Except.error (reps, "single positional indexer is out-of-bounds")
  | r :: _ => coerceInsert reps k (rowCell cols r c)

/-- Lines 223-235 given the resolved `EutranCellFDDId` column: the six
legacy cell-detail insertions, guarded only by the ALPHA selection
being non-empty and both numeric columns being truthy. -/
def lteDetailsWithCols (reps : Reps) (t : DF) (ec : String) (cid sid : Option String)
    (la lb lg : String) : Except DssErr Reps :=
  let aRows := t.rows.filter (fun r => cellEqStr (rowCell t.columns r ec) la)
  let bRows := t.rows.filter (fun r => cellEqStr (rowCell t.columns r ec) lb)
  let gRows := t.rows.filter (fun r => cellEqStr (rowCell t.columns r ec) lg)
  match truthyCol cid, truthyCol sid with
  | some c, some s =>
    if aRows.isEmpty then Except.ok reps
    else do
      let r1 ← ilocCoerce reps "LTE_cellidA" aRows t.columns c
      let r2 ← ilocCoerce r1 "LTE_cellidB" bRows t.columns c
      let r3 ← ilocCoerce r2 "LTE_cellidC" gRows t.columns c
      let r4 ← ilocCoerce r3 "xxLTE_SectorCarrier_No_Alphaxx" aRows t.columns s
      let r5 ← ilocCoerce r4 "xxLTE_SectorCarrier_No_Betaxx" bRows t.columns s
      ilocCoerce r5 "xxLTE_SectorCarrier_No_Gammaxx" gRows t.columns s
  | _, _ => Except.ok reps

/-- Lines 217-237: the legacy cell detail join. -/
def lteDetails (reps : Reps) (eu : Option DF) (la lb lg : String) :
    Except DssErr Reps :=
  match eu with
  | none => Except.ok reps
  | some t =>
    let ec := find_column (some t) ["EutranCellFDDId", "EUtranCellFDDId"]
    let cid := find_column (some t) ["cellId", "cellid"]
    let sid := find_column (some t) ["sectorId", "sectorid"]
    match truthyCol ec with
    | none => Except.ok reps
    | some e => lteDetailsWithCols reps t e cid sid la lb lg

/-- Lines 170-237: from the selected alpha/beta/gamma rows, parse both
band patterns on the ALPHA row's strings; every emission of the stage,
including the numeric local IDs and the sector carriers, sits inside
the `if lte_band_match and nr_band_match:` branch. -/
def bandAndEmit (reps : Reps) (cols : List String) (a b g : List Cell)
    (dc nc : String) (clid nrsec : Option String) (eu : Option DF) :
    Except DssErr Reps :=
  let la := pyStrip (pyStr (rowCell cols a dc))
  let lb := pyStrip (pyStr (rowCell cols b dc))
  let lg := pyStrip (pyStr (rowCell cols g dc))
  let nra := pyStrip (pyStr (rowCell cols a nc))
  let nrb := pyStrip (pyStr (rowCell cols b nc))
  let nrg := pyStrip (pyStr (rowCell cols g nc))
  match searchLTEBand la.data, searchNRBand nra.data with
  | some _, some nb => do
    let nband : String := ⟨nb⟩
    let r1 ← emitLocalIds reps cols a b g clid
    let r2 := emitSectors r1 cols a b g nrsec
    let r3 := pyDictInsert (pyDictInsert (pyDictInsert r2
      "xxLTE_Site_IDxx_XA_1" la) "xxLTE_Site_IDxx_XB_1" lb) "xxLTE_Site_IDxx_XC_1" lg
    let r4 := pyDictInsert (pyDictInsert (pyDictInsert r3
      "xx5G_NR_Node_Namexx_N00XA_1" nra) "xx5G_NR_Node_Namexx_N00XB_1" nrb)
      "xx5G_NR_Node_Namexx_N00XC_1" nrg
    let r5 := emitSiteBand r4 nband
    lteDetails r5 eu la lb lg
  | _, _ => Except.ok reps

/-- Lines 158-237 once the three mandatory columns are truthy. -/
def dssWithCols (reps : Reps) (t : DF) (eu : Option DF) (gname gc dc nc : String)
    (clid nrsec : Option String) : Except DssErr Reps :=
  match selectTriple t gname gc dc nc with
  | none => Except.ok reps
  | some (a, b, g) => bandAndEmit reps t.columns a b g dc nc clid nrsec eu

/-- The body of the `try` at lines 150-237. -/
def dssBody (reps : Reps) (t : DF) (eu : Option DF) (gname : String) :
    Except DssErr Reps :=
  let gc := truthyCol (find_column (some t) ["gNB Name", "gNodeB Name"])
  let dc := truthyCol (find_column (some t) ["DSS", "dss"])
  let nc := truthyCol (find_column (some t) ["NRCellDU", "NRCellDu"])
  let clid := find_column (some t) ["cellLocalId", "celllocalid"]
  let nrsec := find_column (some t) ["NRSectorCarrier", "nrsectorcarrier"]
  match dc, gc, nc with
  | some d, some g, some n => dssWithCols reps t eu gname g d n clid nrsec
  | _, _, _ => Except.ok reps

/-- Lines 148-239: the DSS stage.  It runs only when the `5G Info`
sheet loaded and the next-gen node name resolved; an exception anywhere
inside becomes the single warning `Error extracting DSS cells: ...`,
and the replacements accumulated before the exception are kept. -/
def dssStage (fg eu : Option DF) (reps : Reps) : Reps × List String :=
  match fg, pyLookup reps "xx5G_NR_Node_Namexx" with
  | some t, some gname =>
    match dssBody reps t eu gname with
    | Except.ok r => (r, [])
    | Except.error (r, m) => (r, ["Error extracting DSS cells: " ++ m])
  | _, _ => (reps, [])

/-- `process_template(excel_path, template_path)` from `utils.py`.
`wb = none` models a workbook that cannot be opened (line 78 re-raises)
and `tmpl = none` a template file whose read raises (line 94, no
`try`).  Returns `(filled_content, replacement_count, warnings)`. -/
def process_template (wb : Option Workbook) (tmpl : Option String) :
    Except String (String × List (String × Nat) × List String) :=
  match wb with
  | none => Except.error "Cannot open Excel file"
  | some w =>
    let mm := safe_load_sheet w "Mixed Mode Info" ["MixedModeInfo", "Mixed_Mode_Info"]
    let fg := safe_load_sheet w "5G Info" ["5GInfo", "5G_Info"]
    let eu := safe_load_sheet w "eUtran Parameters" ["EUtranParameters", "eUtran_Parameters"]
    match tmpl with
    | none => Except.error "Cannot read template file"
    | some content =>
      match primaryStage mm with
      | Except.error m => Except.error m
      | Except.ok reps0 =>
        let rw := dssStage fg eu reps0
        let fc := fillAll rw.1 content
        Except.ok (fc.1, fc.2, rw.2)

/-! ## Order lemmas for the embedded sort -/

theorem charsLE_refl : ∀ l, charsLE l l = true
  | [] => rfl
  | a :: as => by simp [charsLE, charsLE_refl as]

theorem charsLE_total : ∀ a b, charsLE a b = true ∨ charsLE b a = true
  | [], _ => Or.inl rfl
  | _ :: _, [] => Or.inr rfl
  | a :: as, b :: bs => by
    rcases Nat.lt_trichotomy a.toNat b.toNat with h | h | h
    · exact Or.inl (by simp [charsLE, h])
    · rcases charsLE_total as bs with h2 | h2
      · exact Or.inl (by simp [charsLE, h, h2])
      · exact Or.inr (by simp [charsLE, h.symm, h2])
    · exact Or.inr (by simp [charsLE, h])

theorem charsLE_trans : ∀ a b c, charsLE a b = true → charsLE b c = true →
    charsLE a c = true
  | [], _, _, _, _ => rfl
  | _ :: _, [], _, h1, _ => by simp [charsLE] at h1
  | _ :: _, _ :: _, [], _, h2 => by simp [charsLE] at h2
  | a :: as, b :: bs, c :: cs, h1, h2 => by
    rcases Nat.lt_trichotomy a.toNat b.toNat with hab | hab | hab
    · rcases Nat.lt_trichotomy b.toNat c.toNat with hbc | hbc | hbc
      · simp [charsLE, Nat.lt_trans hab hbc]
      · simp [charsLE, hbc ▸ hab]
      · simp [charsLE, Nat.lt_asymm hbc, hbc] at h2
    · rcases Nat.lt_trichotomy b.toNat c.toNat with hbc | hbc | hbc
      · simp [charsLE, hab ▸ hbc]
      · simp only [charsLE, hab, hbc] at h1 h2 ⊢
        simp only [Nat.lt_irrefl, if_false] at h1 h2 ⊢
        exact charsLE_trans as bs cs h1 h2
      · simp [charsLE, Nat.lt_asymm hbc, hbc] at h2
    · simp [charsLE, Nat.lt_asymm hab, hab] at h1

theorem cellLE_refl (a : Cell) : cellLE a a = true := by
  cases a <;> simp [cellLE, cellPayLE, charsLE_refl]

theorem cellLE_total (a b : Cell) : cellLE a b = true ∨ cellLE b a = true := by
  cases a <;> cases b <;> simp [cellLE, cellRank, cellPayLE]
  case boolean.boolean x y => cases x <;> cases y <;> simp
  case intVal.intVal m n => omega
  case strVal.strVal s t => exact charsLE_total s.data t.data

theorem cellLE_trans (a b c : Cell) (h1 : cellLE a b = true) (h2 : cellLE b c = true) :
    cellLE a c = true := by
  cases a <;> cases b <;> cases c <;>
    simp_all [cellLE, cellRank, cellPayLE]
  case boolean.boolean.boolean x y z => cases x <;> cases y <;> cases z <;> simp_all
  case intVal.intVal.intVal => omega
  case strVal.strVal.strVal s t u => exact charsLE_trans s.data t.data u.data h1 h2

instance (cols : List String) (nc : String) : IsTotal (List Cell) (rowLE cols nc) :=
  ⟨fun x y => cellLE_total (rowCell cols x nc) (rowCell cols y nc)⟩

instance (cols : List String) (nc : String) : IsTrans (List Cell) (rowLE cols nc) :=
  ⟨fun x y z h1 h2 =>
    cellLE_trans (rowCell cols x nc) (rowCell cols y nc) (rowCell cols z nc) h1 h2⟩

theorem rowLE_refl (cols : List String) (nc : String) (x : List Cell) :
    rowLE cols nc x x :=
  cellLE_refl (rowCell cols x nc)

/-! ## Lemmas about the template filler -/

theorem replaceAllGo_of_count_zero (pat rep : List Char) :
    ∀ f s, countOccGo pat f s = 0 → replaceAllGo pat rep f s = s := by
  intro f
  induction f with
  | zero => intro s _; cases s <;> rfl
  | succ f ih =>
    intro s h
    cases s with
    | nil => rfl
    | cons c rest =>
      by_cases hp : (!pat.isEmpty && pat.isPrefixOf (c :: rest)) = true
      · rw [countOccGo, if_pos hp] at h
        omega
      · rw [countOccGo, if_neg hp] at h
        rw [replaceAllGo, if_neg hp, ih rest h]

theorem replaceAll_of_countOcc_zero (pat rep s : List Char) (h : countOcc pat s = 0) :
    replaceAll pat rep s = s :=
  replaceAllGo_of_count_zero pat rep s.length s h

theorem fillStep_fst (st : List Char × List (List Char × Nat))
    (kv : List Char × List Char) : (fillStep st kv).1 = replaceAll kv.1 kv.2 st.1 := by
  unfold fillStep
  by_cases h : 0 < countOcc kv.1 st.1
  · simp [h]
  · have h0 : countOcc kv.1 st.1 = 0 := by omega
    simp [h, replaceAll_of_countOcc_zero kv.1 kv.2 st.1 h0]

theorem fillStep_id (st : List Char × List (List Char × Nat))
    (kv : List Char × List Char) (h : countOcc kv.1 st.1 = 0) : fillStep st kv = st := by
  simp [fillStep, h]

theorem foldl_fillStep_id : ∀ (l : List (List Char × List Char))
    (st : List Char × List (List Char × Nat)),
    (∀ kv ∈ l, countOcc kv.1 st.1 = 0) → l.foldl fillStep st = st := by
  intro l
  induction l with
  | nil => intro st _; rfl
  | cons x xs ih =>
    intro st h
    rw [List.foldl_cons, fillStep_id st x (h x (List.mem_cons_self x xs))]
    exact ih st (fun kv hm => h kv (List.mem_cons_of_mem x hm))

theorem mem_insertDescLen (x y : List Char × List Char) :
    ∀ l, y ∈ insertDescLen x l ↔ y = x ∨ y ∈ l := by
  intro l
  induction l with
  | nil => simp [insertDescLen]
  | cons z zs ih =>
    by_cases h : z.1.length ≤ x.1.length
    · simp [insertDescLen, h]
    · simp [insertDescLen, h, ih]
      tauto

theorem mem_sortDescLen (y : List Char × List Char) :
    ∀ l, y ∈ sortDescLen l ↔ y ∈ l := by
  intro l
  induction l with
  | nil => exact Iff.rfl
  | cons x xs ih => simp [sortDescLen, mem_insertDescLen, ih]

theorem sortDescLen_pair (x y : List Char × List Char) :
    sortDescLen [x, y] = if y.1.length ≤ x.1.length then [x, y] else [y, x] := by
  simp [sortDescLen, insertDescLen]

/-! ## Lemmas about the Python dict embedding -/

theorem pyLookup_cons {α : Type} (x : String × α) (d : List (String × α)) (q : String) :
    pyLookup (x :: d) q = if x.1 == q then some x.2 else pyLookup d q := by
  by_cases h : x.1 == q
  · simp [pyLookup, List.find?_cons_of_pos, h]
  · simp [pyLookup, List.find?_cons_of_neg, h]

theorem pyDictInsert_cons {α : Type} (x : String × α) (d : List (String × α))
    (k : String) (v : α) :
    pyDictInsert (x :: d) k v =
      if x.1 == k then (k, v) :: d.map (fun p => if p.1 == k then (k, v) else p)
      else x :: pyDictInsert d k v := by
  by_cases hx : x.1 == k
  · simp [pyDictInsert, hx]
    intro hc
    exact absurd (by simpa using hx) hc
  · by_cases hd : d.any (fun p => p.1 == k)
    · simp [pyDictInsert, hx, hd]
      intro hc
      exact absurd (by simp [hc]) hx
    · simp [pyDictInsert, hx, hd]

theorem pyLookup_map_overwrite {α : Type} (k : String) (v : α) (q : String)
    (hq : q ≠ k) : ∀ d : List (String × α),
    pyLookup (d.map (fun p => if p.1 == k then (k, v) else p)) q = pyLookup d q := by
  intro d
  induction d with
  | nil => rfl
  | cons x xs ih =>
    by_cases hx : x.1 == k
    · have hxk : x.1 = k := by simpa using hx
      have h1 : ¬ ((k : String) == q) := by simp [Ne.symm hq]
      have h2 : ¬ (x.1 == q) := by simp [hxk, Ne.symm hq]
      simp only [List.map_cons, if_pos hx, pyLookup_cons, if_neg h1, if_neg h2, ih]
    · simp only [List.map_cons, if_neg hx, pyLookup_cons, ih]

theorem pyLookup_pyDictInsert {α : Type} (d : List (String × α)) (k : String) (v : α)
    (q : String) :
    pyLookup (pyDictInsert d k v) q = if q = k then some v else pyLookup d q := by
  induction d with
  | nil =>
    by_cases h : q = k
    · simp [pyDictInsert, pyLookup_cons, h]
    · have : ¬ ((k : String) == q) := by simp [Ne.symm h]
      simp [pyDictInsert, pyLookup_cons, h, this]
  | cons x xs ih =>
    rw [pyDictInsert_cons]
    by_cases hx : x.1 == k
    · rw [if_pos hx, pyLookup_cons]
      by_cases hq : q = k
      · simp [hq]
      · have h1 : ¬ ((k : String) == q) := by simp [Ne.symm hq]
        have hxk : x.1 = k := by simpa using hx
        have h2 : ¬ (x.1 == q) := by simp [hxk, Ne.symm hq]
        rw [if_neg h1, pyLookup_map_overwrite k v q hq xs, if_neg hq, pyLookup_cons,
          if_neg h2]
    · rw [if_neg hx, pyLookup_cons]
      by_cases hxq : x.1 == q
      · have hqk : ¬ q = k := by
          intro h
          exact hx (by simpa [h] using hxq)
        simp [hxq, hqk, pyLookup_cons]
      · simp [hxq, ih, pyLookup_cons]

theorem pyLookup_colDict (cols : List String) (key : String) :
    pyLookup (colDict cols) key = cols.reverse.find? (fun c => normName c == key) := by
  induction cols using List.reverseRecOn with
  | nil => rfl
  | append_singleton cs c ih =>
    rw [colDict, List.foldl_append, List.foldl_cons, List.foldl_nil]
    rw [show List.foldl (fun d c => pyDictInsert d (normName c) c) [] cs = colDict cs from rfl]
    rw [pyLookup_pyDictInsert, List.reverse_append, List.reverse_singleton,
      List.singleton_append, List.find?_cons]
    by_cases h : key = normName c
    · simp [h, ih]
    · have : ¬ (normName c == key) := by simp [Ne.symm h]
      simp only [if_neg h, this, ih, cond_false]

/-! ## Concrete worksheets used by the claim instances -/

/-- A `Mixed Mode Info` sheet with one fully populated row (no cabinet
column, so the fallback row selection applies). -/
def mmA : DF := ⟨["eNodeB Name", "eNBId", "gNodeB Name", "gNBId"],
  [[Cell.strVal "SITE1", Cell.intVal 100, Cell.strVal "GSITE1", Cell.intVal 200]]⟩

/-- The replacements the primary stage produces on `mmA`. -/
def repsA : Reps :=
  [("xxMMBB_Primary_Node_Namexx", "SITE1"), ("xxLTE_Site_IDxx", "SITE1"),
   ("xxLTE_eNBIDxx", "100"), ("xx5G_NR_Node_Namexx", "GSITE1"),
   ("xx5G_NR_gNBIDxx", "200")]

/-- A `5G Info` sheet whose cross-reference strings lack the legacy
band pattern `_<digits><A|B|C>_`, while the `cellLocalId` and
`NRSectorCarrier` columns are present and populated. -/
def fgNoBand : DF := ⟨["gNB Name", "DSS", "NRCellDU", "cellLocalId", "NRSectorCarrier"],
  [[Cell.strVal "GSITE1", Cell.strVal "SITE1X", Cell.strVal "GS_N066A_1", Cell.intVal 1, Cell.strVal "S1"],
   [Cell.strVal "GSITE1", Cell.strVal "SITE1Y", Cell.strVal "GS_N066B_1", Cell.intVal 2, Cell.strVal "S2"],
   [Cell.strVal "GSITE1", Cell.strVal "SITE1Z", Cell.strVal "GS_N066C_1", Cell.intVal 3, Cell.strVal "S3"]]⟩

/-- A `5G Info` sheet with well-formed band patterns on all three
qualifying rows. -/
def fg3 : DF := ⟨["gNB Name", "DSS", "NRCellDU"],
  [[Cell.strVal "GSITE1", Cell.strVal "SITE1_66A_1", Cell.strVal "GS_N066A_1"],
   [Cell.strVal "GSITE1", Cell.strVal "SITE1_66B_1", Cell.strVal "GS_N066B_1"],
   [Cell.strVal "GSITE1", Cell.strVal "SITE1_66C_1", Cell.strVal "GS_N066C_1"]]⟩

/-- An `eUtran Parameters` sheet holding the beta and gamma
cross-reference rows but no alpha row. -/
def eu3 : DF := ⟨["EutranCellFDDId", "cellId", "sectorId"],
  [[Cell.strVal "SITE1_66B_1", Cell.intVal 11, Cell.intVal 21],
   [Cell.strVal "SITE1_66C_1", Cell.intVal 12, Cell.intVal 22]]⟩

/-- An `eUtran Parameters` sheet holding the alpha and gamma
cross-reference rows but no beta row. -/
def eu10 : DF := ⟨["EutranCellFDDId", "cellId", "sectorId"],
  [[Cell.strVal "SITE1_66A_1", Cell.intVal 10, Cell.intVal 20],
   [Cell.strVal "SITE1_66C_1", Cell.intVal 12, Cell.intVal 22]]⟩

/-- A `Mixed Mode Info` sheet whose legacy node ID cell holds the
non-numeric string `abc`. -/
def mm2 : DF := ⟨["eNodeB Name", "eNBId"], [[Cell.strVal "SITE1", Cell.strVal "abc"]]⟩

/-- The `5G Info` sheet of the triple-selection example: five
qualifying rows whose cell identifiers appear as C2, C1, C4, C3, C5 in
file order. -/
def fgEx : DF := ⟨["gNB Name", "DSS", "NRCellDU"],
  [[Cell.strVal "G", Cell.strVal "X", Cell.strVal "C2"],
   [Cell.strVal "G", Cell.strVal "X", Cell.strVal "C1"],
   [Cell.strVal "G", Cell.strVal "X", Cell.strVal "C4"],
   [Cell.strVal "G", Cell.strVal "X", Cell.strVal "C3"],
   [Cell.strVal "G", Cell.strVal "X", Cell.strVal "C5"]]⟩

/-- A table with two columns sharing one normalized header name. -/
def dfDup : DF := ⟨["A B", "A_B"], [[Cell.na, Cell.na]]⟩

/-! ## Claim C5 -/

/-- The five-character placeholder key of the prefix-safety property. -/
def keyA : List Char := "xxAxx".data

/-- The six-character placeholder key that `keyA`-like partial
substitution would corrupt. -/
def keyAB : List Char := "xxABxx".data

/-- C5 (Template Filler prefix safety): for any values of `xxAxx` and
`xxABxx`, in either insertion order of the map, and any template text
containing an occurrence of `xxABxx`, the filler substitutes with the
`xxABxx` entry strictly before the `xxAxx` entry is ever considered
(descending key length), so every occurrence of `xxABxx` in the
template receives `xxABxx`'s value and is never split into `xxAxx`'s
value followed by the residue `Bxx`. -/
theorem fill_longest_key_first (vA vAB t : List Char)
    (_hocc : 0 < countOcc keyAB t) :
    fillText [(keyA, vA), (keyAB, vAB)] t
      = replaceAll keyA vA (replaceAll keyAB vAB t)
    ∧ fillText [(keyAB, vAB), (keyA, vA)] t
      = replaceAll keyA vA (replaceAll keyAB vAB t) := by
  have hlen : ¬ (keyAB.length ≤ keyA.length) := by decide
  have hlen2 : keyA.length ≤ keyAB.length := by decide
  constructor
  · show ((sortDescLen [(keyA, vA), (keyAB, vAB)]).foldl fillStep (t, [])).1 = _
    rw [sortDescLen_pair, if_neg hlen, List.foldl_cons, List.foldl_cons, List.foldl_nil,
      fillStep_fst, fillStep_fst]
  · show ((sortDescLen [(keyAB, vAB), (keyA, vA)]).foldl fillStep (t, [])).1 = _
    rw [sortDescLen_pair, if_pos hlen2, List.foldl_cons, List.foldl_cons, List.foldl_nil,
      fillStep_fst, fillStep_fst]

/-- Witness for C5 at a concrete input. -/
theorem fill_longest_key_first_witness :
    0 < countOcc keyAB "pre xxABxx".data
    ∧ fillText [(keyA, "1".data), (keyAB, "2".data)] "pre xxABxx".data
        = replaceAll keyA "1".data (replaceAll keyAB "2".data "pre xxABxx".data) :=
  ⟨by decide, (fill_longest_key_first "1".data "2".data "pre xxABxx".data (by decide)).1⟩

/-! ## Claim C6 -/

/-- C6 counterexample: the map `{"ab": "a"}` satisfies the claim's side
condition (no key is a substring of another key's value — indeed of any
value), yet on the template `abb` the first run yields `ab` and the
second run changes it again to `a`: the junction of the inserted value
and the residual text recreates the key. -/
theorem fill_not_idempotent_cex :
    ¬ "ab".data <:+: "a".data
    ∧ fillText [("ab".data, "a".data)]
        (fillText [("ab".data, "a".data)] "abb".data)
      ≠ fillText [("ab".data, "a".data)] "abb".data := by
  exact ⟨by decide, by decide⟩

/-- C6 (amended): the second run leaves the text unchanged under the
stronger (and necessary, by the counterexample) condition that no key
of the map still occurs in the first run's output. -/
theorem fill_idempotent_of_no_residual_keys (m : List (List Char × List Char))
    (t : List Char)
    (h : ∀ kv ∈ m, countOcc kv.1 (fillText m t) = 0) :
    fillText m (fillText m t) = fillText m t := by
  have h2 : ∀ kv ∈ sortDescLen m, countOcc kv.1 (fillText m t) = 0 :=
    fun kv hm => h kv ((mem_sortDescLen kv m).mp hm)
  have h3 := foldl_fillStep_id (sortDescLen m) (fillText m t, []) h2
  calc fillText m (fillText m t)
      = ((sortDescLen m).foldl fillStep (fillText m t, [])).1 := rfl
    _ = (fillText m t, []).1 := by rw [h3]
    _ = fillText m t := rfl

/-- Witness for the amended C6 at a concrete input. -/
theorem fill_idempotent_witness :
    (∀ kv ∈ [("ab".data, "x".data)],
      countOcc kv.1 (fillText [("ab".data, "x".data)] "aab".data) = 0)
    ∧ fillText [("ab".data, "x".data)] (fillText [("ab".data, "x".data)] "aab".data)
        = fillText [("ab".data, "x".data)] "aab".data :=
  ⟨by decide, fill_idempotent_of_no_residual_keys [("ab".data, "x".data)] "aab".data (by decide)⟩

/-! ## Claim C7 -/

/-- C7 counterexample: with two columns `A B` and `A_B` sharing the
normalized form `ab`, the resolver returns the LAST one (`A_B`), not
the first (`A B`): the dict comprehension lets later columns overwrite
earlier ones. -/
theorem find_column_not_first_cex :
    normName "A B" = normName "AB"
    ∧ normName "A_B" = normName "AB"
    ∧ dfDup.columns = ["A B", "A_B"]
    ∧ find_column (some dfDup) ["AB"] = some "A_B" := by
  exact ⟨by decide, by decide, rfl, by decide⟩

/-- C7 (amended): `find_column` returns "not found" on an absent/empty
table; otherwise it tries the candidates in caller-supplied order and
returns, for the first candidate whose normalized form matches any
column, the LAST (in column order) such column — not the first.  The
three header variants of the claim all resolve, identically, for the
candidate `eNodeB Name`. -/
theorem find_column_characterization (df : Option DF) (names : List String) :
    (find_column df names = match df with
      | none => none
      | some t =>
        if t.rows.isEmpty || t.columns.isEmpty then none
        else names.findSome? (fun n =>
          t.columns.reverse.find? (fun c => normName c == normName n)))
    ∧ find_column (some ⟨["ENODEBNAME"], [[Cell.na]]⟩) ["eNodeB Name"] = some "ENODEBNAME"
    ∧ find_column (some ⟨["e_nodeb_name"], [[Cell.na]]⟩) ["eNodeB Name"] = some "e_nodeb_name"
    ∧ find_column (some ⟨["  eNodeB   Name"], [[Cell.na]]⟩) ["eNodeB Name"]
        = some "  eNodeB   Name" := by
  refine ⟨?_, by decide, by decide, by decide⟩
  cases df with
  | none => rfl
  | some t =>
    show (if t.rows.isEmpty || t.columns.isEmpty then none
      else names.findSome? (fun n => pyLookup (colDict t.columns) (normName n))) = _
    by_cases he : (t.rows.isEmpty || t.columns.isEmpty) = true
    · simp only [he, if_true]
    · simp only [he, if_false]
      exact congrArg (fun f => List.findSome? f names)
        (funext fun n => pyLookup_colDict t.columns (normName n))

/-! ## Claim C8 -/

/-- Unfolding of `safe_get_value` on present table and column. -/
theorem safe_get_value_some (t : DF) (c : String) (i : Nat) (d : Cell) :
    safe_get_value (some t) (some c) i d =
      if t.columns.contains c then
        if t.rows.length ≤ i then d
        else if rowCell t.columns (t.rows.getD i []) c = Cell.na then d
        else rowCell t.columns (t.rows.getD i []) c
      else d := rfl

/-- C8 (Safe Cell Reader): `safe_get_value` returns the default exactly
on the four failure conditions — table absent, column absent, row index
beyond the table length, cell value null/missing — and otherwise the
raw cell value.  The embedding is a total function (every Python path,
including the blanket `except`, is a value, never an exception). -/
theorem safe_get_value_spec (df : Option DF) (col : Option String) (i : Nat) (d : Cell) :
    (df = none → safe_get_value df col i d = d)
    ∧ (col = none → safe_get_value df col i d = d)
    ∧ ∀ t c, df = some t → col = some c →
        ((t.columns.contains c = false → safe_get_value df col i d = d)
        ∧ (t.rows.length ≤ i → safe_get_value df col i d = d)
        ∧ (rowCell t.columns (t.rows.getD i []) c = Cell.na → safe_get_value df col i d = d)
        ∧ (t.columns.contains c = true → i < t.rows.length →
            rowCell t.columns (t.rows.getD i []) c ≠ Cell.na →
            safe_get_value df col i d = rowCell t.columns (t.rows.getD i []) c)) := by
  refine ⟨?_, ?_, ?_⟩
  · rintro rfl; cases col <;> rfl
  · rintro rfl; cases df <;> rfl
  · rintro t c rfl rfl
    refine ⟨?_, ?_, ?_, ?_⟩
    · intro h
      rw [safe_get_value_some, if_neg (by simpa using h)]
    · intro h
      rw [safe_get_value_some]
      by_cases hc : t.columns.contains c = true
      · rw [if_pos hc, if_pos h]
      · rw [if_neg hc]
    · intro h
      rw [safe_get_value_some]
      by_cases hc : t.columns.contains c = true
      · rw [if_pos hc]
        by_cases hl : t.rows.length ≤ i
        · rw [if_pos hl]
        · rw [if_neg hl, if_pos h]
      · rw [if_neg hc]
    · intro h1 h2 h3
      rw [safe_get_value_some, if_pos h1, if_neg (Nat.not_le.mpr h2), if_neg h3]

/-- Witness for C8 at concrete inputs: an absent table yields the
default, a present non-null cell is returned raw. -/
theorem safe_get_value_spec_witness :
    safe_get_value none (some "A") 0 (Cell.strVal "d") = Cell.strVal "d"
    ∧ safe_get_value (some ⟨["A"], [[Cell.intVal 7]]⟩) (some "A") 0 Cell.na = Cell.intVal 7 :=
  ⟨(safe_get_value_spec none (some "A") 0 (Cell.strVal "d")).1 rfl,
   ((safe_get_value_spec (some ⟨["A"], [[Cell.intVal 7]]⟩) (some "A") 0 Cell.na).2.2
      ⟨["A"], [[Cell.intVal 7]]⟩ "A" rfl rfl).2.2.2 (by decide) (by decide) (by decide)⟩

/-! ## Claim C4 -/

/-- Qualifying row of the triple-selection example holding identifier C1. -/
def rC1 : List Cell := [Cell.strVal "G", Cell.strVal "X", Cell.strVal "C1"]

/-- Qualifying row of the triple-selection example holding identifier C2. -/
def rC2 : List Cell := [Cell.strVal "G", Cell.strVal "X", Cell.strVal "C2"]

/-- Qualifying row of the triple-selection example holding identifier C3. -/
def rC3 : List Cell := [Cell.strVal "G", Cell.strVal "X", Cell.strVal "C3"]

/-- C4 (DSS cell triple selection): with fewer than three qualifying
rows (node-name match, cross-reference non-null and not `NO`) no triple
is selected and the stage returns the map unchanged, the run
continuing; with a triple selected, alpha, beta and gamma are
qualifying rows in ascending order of the cell-identifier column, and
alpha's identifier is minimal among all qualifying rows (positions
0, 1, 2 of the ascending stable sort). -/
theorem dss_triple_selection (t : DF) (gname gc dc nc : String) :
    ((qualifying t gname gc dc).length < 3 → selectTriple t gname gc dc nc = none)
    ∧ (∀ reps eu clid nrsec, selectTriple t gname gc dc nc = none →
        dssWithCols reps t eu gname gc dc nc clid nrsec = Except.ok reps)
    ∧ (∀ a b g, selectTriple t gname gc dc nc = some (a, b, g) →
        3 ≤ (qualifying t gname gc dc).length
        ∧ a ∈ qualifying t gname gc dc
        ∧ b ∈ qualifying t gname gc dc
        ∧ g ∈ qualifying t gname gc dc
        ∧ rowLE t.columns nc a b
        ∧ rowLE t.columns nc b g
        ∧ ∀ r ∈ qualifying t gname gc dc, rowLE t.columns nc a r) := by
  have hperm : List.Perm (sortByCol t nc (qualifying t gname gc dc))
      (qualifying t gname gc dc) :=
    List.perm_insertionSort (rowLE t.columns nc) (qualifying t gname gc dc)
  have hsort : List.Sorted (rowLE t.columns nc) (sortByCol t nc (qualifying t gname gc dc)) :=
    List.sorted_insertionSort (rowLE t.columns nc) (qualifying t gname gc dc)
  have hlen : (sortByCol t nc (qualifying t gname gc dc)).length
      = (qualifying t gname gc dc).length := hperm.length_eq
  refine ⟨?_, ?_, ?_⟩
  · intro h
    match hs : sortByCol t nc (qualifying t gname gc dc) with
    | [] => simp [selectTriple, hs]
    | [a] => simp [selectTriple, hs]
    | [a, b] => simp [selectTriple, hs]
    | a :: b :: g :: tl =>
      rw [hs] at hlen
      simp at hlen
      omega
  · intro reps eu clid nrsec h
    simp [dssWithCols, h]
  · intro a b g h
    match hs : sortByCol t nc (qualifying t gname gc dc) with
    | [] => rw [selectTriple, hs] at h; cases h
    | [x] => rw [selectTriple, hs] at h; cases h
    | [x, y] => rw [selectTriple, hs] at h; cases h
    | x :: y :: z :: tl =>
      rw [selectTriple, hs] at h
      injection h with h2
      obtain ⟨hx, hy, hz⟩ : x = a ∧ y = b ∧ z = g := by
        constructor
        · exact congrArg Prod.fst h2
        constructor
        · exact congrArg (fun p => p.2.1) h2
        · exact congrArg (fun p => p.2.2) h2
      subst hx; subst hy; subst hz
      rw [hs] at hlen hsort
      rw [List.sorted_cons] at hsort
      obtain ⟨ha1, hsort2⟩ := hsort
      rw [List.sorted_cons] at hsort2
      obtain ⟨hb1, hsort3⟩ := hsort2
      have hmem : ∀ r, r ∈ x :: y :: z :: tl → r ∈ qualifying t gname gc dc := by
        intro r hr
        exact (hperm.mem_iff).mp (hs ▸ hr)
      refine ⟨by simp at hlen; omega, ?_, ?_, ?_, ?_, ?_, ?_⟩
      · exact hmem x (by simp)
      · exact hmem y (by simp)
      · exact hmem z (by simp)
      · exact ha1 y (by simp)
      · exact hb1 z (by simp)
      · intro r hr
        have hr2 : r ∈ x :: y :: z :: tl := by
          rw [← hs]
          exact (hperm.mem_iff).mpr hr
        rcases List.mem_cons.mp hr2 with hr3 | hr3
        · rw [hr3]
          exact rowLE_refl t.columns nc x
        · exact ha1 r hr3

/-- Witness for C4: the spec's example — identifiers appearing as
C2, C1, C4, C3, C5 in file order select alpha=C1, beta=C2, gamma=C3. -/
theorem dss_triple_selection_witness :
    selectTriple fgEx "G" "gNB Name" "DSS" "NRCellDU" = some (rC1, rC2, rC3)
    ∧ (3 ≤ (qualifying fgEx "G" "gNB Name" "DSS").length
      ∧ rC1 ∈ qualifying fgEx "G" "gNB Name" "DSS"
      ∧ rC2 ∈ qualifying fgEx "G" "gNB Name" "DSS"
      ∧ rC3 ∈ qualifying fgEx "G" "gNB Name" "DSS"
      ∧ rowLE fgEx.columns "NRCellDU" rC1 rC2
      ∧ rowLE fgEx.columns "NRCellDU" rC2 rC3
      ∧ ∀ r ∈ qualifying fgEx "G" "gNB Name" "DSS", rowLE fgEx.columns "NRCellDU" rC1 r) :=
  ⟨by decide,
   (dss_triple_selection fgEx "G" "gNB Name" "DSS" "NRCellDU").2.2 rC1 rC2 rC3 (by decide)⟩

/-! ## Claim C1 -/

/-- C1 counterexample (closed): on a workbook whose DSS triple resolves
and whose `cellLocalId` and `NRSectorCarrier` columns are present, but
whose alpha cross-reference `SITE1X` lacks the legacy band pattern, the
run completes with no warnings and the stage adds NO placeholders at
all — the per-cell local IDs and sector carriers included — contrary to
the claim that those are emitted independently of band parsing. -/
theorem band_gate_cex :
    searchLTEBand (pyStrip (pyStr (Cell.strVal "SITE1X"))).data = none
    ∧ find_column (some fgNoBand) ["cellLocalId", "celllocalid"] = some "cellLocalId"
    ∧ find_column (some fgNoBand) ["NRSectorCarrier", "nrsectorcarrier"] = some "NRSectorCarrier"
    ∧ primaryStage (some mmA) = Except.ok repsA
    ∧ dssStage (some fgNoBand) none repsA = (repsA, [])
    ∧ process_template (some [("Mixed Mode Info", mmA), ("5G Info", fgNoBand)])
        (some "xx5G_celllocalidAxx xx5G_NRSectorCarrier_Alphaxx")
      = Except.ok ("xx5G_celllocalidAxx xx5G_NRSectorCarrier_Alphaxx", [], []) := by
  exact ⟨by decide, by decide, by decide, by decide, by decide, by decide⟩

/-- C1 (amended): when either band pattern fails to match on the alpha
row's strings, the stage emits NOTHING — band-dependent placeholders,
numeric local IDs and sector carriers alike — and raises no warning:
the replacements are returned exactly as they were. -/
theorem band_gate_blocks_all (reps : Reps) (cols : List String) (a b g : List Cell)
    (dc nc : String) (clid nrsec : Option String) (eu : Option DF)
    (h : searchLTEBand (pyStrip (pyStr (rowCell cols a dc))).data = none
      ∨ searchNRBand (pyStrip (pyStr (rowCell cols a nc))).data = none) :
    bandAndEmit reps cols a b g dc nc clid nrsec eu = Except.ok reps := by
  simp only [bandAndEmit]
  rcases h with h | h
  · rw [h]
  · cases hl : searchLTEBand (pyStrip (pyStr (rowCell cols a dc))).data with
    | none => rfl
    | some lb2 => rw [h]

/-- Witness for the amended C1 at a concrete input. -/
theorem band_gate_blocks_witness :
    searchLTEBand (pyStrip (pyStr (rowCell ["DSS"] [Cell.strVal "SITE1X"] "DSS"))).data = none
    ∧ bandAndEmit [] ["DSS"] [Cell.strVal "SITE1X"] [] [] "DSS" "DSS" none none none
        = Except.ok [] :=
  ⟨by decide,
   band_gate_blocks_all [] ["DSS"] [Cell.strVal "SITE1X"] [] [] "DSS" "DSS" none none none
     (Or.inl (by decide))⟩

/-! ## Claim C2 -/

/-- C2 counterexample (closed): the workbook opens and the template
reads, yet the run aborts — the legacy node ID cell holds the
non-numeric string `abc`, and the unguarded `int(float(...))` raises
out of `process_template` instead of omitting `xxLTE_eNBIDxx`. -/
theorem coercion_abort_cex :
    process_template (some [("Mixed Mode Info", mm2)]) (some "T")
      = Except.error "could not convert string to float" := by decide

/-- C2 (amended): `process_template` propagates an error when the
workbook cannot be opened, when the template cannot be read, and when
the primary-node stage raises — which a numeric-coercion failure on a
non-NaN legacy/next-gen node ID field does, the coercion being
unguarded; once the primary stage succeeds the run always returns
normally (the DSS stage converts its exceptions to warnings). -/
theorem error_propagation (w : Workbook) (tmpl : String) :
    process_template none (some tmpl) = Except.error "Cannot open Excel file"
    ∧ process_template (some w) none = Except.error "Cannot read template file"
    ∧ (∀ m, primaryStage (safe_load_sheet w "Mixed Mode Info"
          ["MixedModeInfo", "Mixed_Mode_Info"]) = Except.error m →
        process_template (some w) (some tmpl) = Except.error m)
    ∧ (∀ r, primaryStage (safe_load_sheet w "Mixed Mode Info"
          ["MixedModeInfo", "Mixed_Mode_Info"]) = Except.ok r →
        ∃ out, process_template (some w) (some tmpl) = Except.ok out)
    ∧ (∀ reps k v, notna v = true → pyIntFloat v = none →
        coercePrimary reps k v = Except.error "could not convert string to float") := by
  refine ⟨rfl, rfl, ?_, ?_, ?_⟩
  · intro m h
    simp only [process_template, h]
  · intro r h
    cases hres : process_template (some w) (some tmpl) with
    | ok out => exact ⟨out, rfl⟩
    | error m =>
      simp only [process_template, h] at hres
      simp at hres
  · intro reps k v h1 h2
    simp [coercePrimary, h1, h2]

/-- Witness for the amended C2 at concrete inputs. -/
theorem error_propagation_witness :
    process_template (some [("Mixed Mode Info", mm2)]) (some "T")
        = Except.error "could not convert string to float"
    ∧ coercePrimary [] "xxLTE_eNBIDxx" (Cell.strVal "abc")
        = Except.error "could not convert string to float" :=
  ⟨(error_propagation [("Mixed Mode Info", mm2)] "T").2.2.1
      "could not convert string to float" (by decide),
   (error_propagation [("Mixed Mode Info", mm2)] "T").2.2.2.2 [] "xxLTE_eNBIDxx"
      (Cell.strVal "abc") (by decide) (by decide)⟩

/-! ## Claim C3 -/

/-- C3 counterexample (closed): beta and gamma cross-reference rows are
present in `eUtran Parameters` while the alpha row is missing; contrary
to the claim that each role contributes independently, the join emits
no cell-ID/sector-ID values for ANY role, with no warning. -/
theorem lte_join_not_independent_cex :
    (eu3.rows.filter (fun r =>
        cellEqStr (rowCell eu3.columns r "EutranCellFDDId") "SITE1_66B_1")).length = 1
    ∧ find_column (some eu3) ["EutranCellFDDId", "EUtranCellFDDId"] = some "EutranCellFDDId"
    ∧ pyLookup (dssStage (some fg3) (some eu3) repsA).1 "LTE_cellidB" = none
    ∧ pyLookup (dssStage (some fg3) (some eu3) repsA).1 "xxLTE_SectorCarrier_No_Betaxx" = none
    ∧ (dssStage (some fg3) (some eu3) repsA).2 = []
    ∧ process_template
        (some [("Mixed Mode Info", mmA), ("5G Info", fg3), ("eUtran Parameters", eu3)])
        (some "T")
      = Except.ok ("T", [], []) := by
  exact ⟨by decide, by decide, by decide, by decide, by decide, by decide⟩

/-- C3 (amended): the roles are NOT independent.  If the alpha
cross-reference matches no row the join emits nothing for any role,
silently; if alpha matches (with both numeric columns truthy) but beta
matches no row, the `iloc[0]` raises, aborting the stage with exactly
the values inserted before the failure — alpha's cell ID — in the
error payload. -/
theorem lte_join_alpha_gate (reps : Reps) (t : DF) (ec : String)
    (cid sid : Option String) (la lb lg : String) :
    ((t.rows.filter (fun r => cellEqStr (rowCell t.columns r ec) la)).isEmpty = true →
      lteDetailsWithCols reps t ec cid sid la lb lg = Except.ok reps)
    ∧ (∀ c s r rest n, truthyCol cid = some c → truthyCol sid = some s →
        t.rows.filter (fun r2 => cellEqStr (rowCell t.columns r2 ec) la) = r :: rest →
        pyInt (rowCell t.columns r c) = some n →
        t.rows.filter (fun r2 => cellEqStr (rowCell t.columns r2 ec) lb) = [] →
        lteDetailsWithCols reps t ec cid sid la lb lg
          = Except.error (pyDictInsert reps "LTE_cellidA" (toString n),
              "single positional indexer is out-of-bounds")) := by
  constructor
  · intro h
    simp only [lteDetailsWithCols]
    cases truthyCol cid with
    | none => rfl
    | some c =>
      cases truthyCol sid with
      | none => rfl
      | some s => simp [h]
  · intro c s r rest n hc hs hfa hn hfb
    simp [lteDetailsWithCols, hc, hs, hfa, hfb, ilocCoerce, coerceInsert, hn,
      Bind.bind, Except.bind]

/-- Witness for the amended C3: an `eUtran Parameters` sheet with the
alpha row present and the beta row missing gives the partial failure,
and one with the alpha row missing gives the silent skip. -/
theorem lte_join_alpha_gate_witness :
    lteDetailsWithCols repsA eu3 "EutranCellFDDId" (some "cellId") (some "sectorId")
        "SITE1_66A_1" "SITE1_66B_1" "SITE1_66C_1" = Except.ok repsA
    ∧ lteDetailsWithCols repsA eu10 "EutranCellFDDId" (some "cellId") (some "sectorId")
        "SITE1_66A_1" "SITE1_66B_1" "SITE1_66C_1"
      = Except.error (pyDictInsert repsA "LTE_cellidA" "10",
          "single positional indexer is out-of-bounds") :=
  ⟨(lte_join_alpha_gate repsA eu3 "EutranCellFDDId" (some "cellId") (some "sectorId")
      "SITE1_66A_1" "SITE1_66B_1" "SITE1_66C_1").1 (by decide),
   (lte_join_alpha_gate repsA eu10 "EutranCellFDDId" (some "cellId") (some "sectorId")
      "SITE1_66A_1" "SITE1_66B_1" "SITE1_66C_1").2 "cellId" "sectorId"
      [Cell.strVal "SITE1_66A_1", Cell.intVal 10, Cell.intVal 20] [] 10
      (by decide) (by decide) (by decide) (by decide) (by decide)⟩

/-! ## Claim C9 -/

/-- C9 counterexample (closed): the `5G Info` sheet is absent — one of
the degraded conditions the claim says is logged as a warning — yet the
run completes with an EMPTY warnings list. -/
theorem warnings_missing_cex :
    safe_load_sheet [("Mixed Mode Info", mmA)] "5G Info" ["5GInfo", "5G_Info"] = none
    ∧ process_template (some [("Mixed Mode Info", mmA)]) (some "T")
        = Except.ok ("T", [], []) :=
  ⟨by decide, by decide⟩

/-- C9 (amended): the warnings list records ONLY an exception caught by
the DSS-stage `try/except` — it is empty or a single
`Error extracting DSS cells: ...` entry; in particular a run whose
`5G Info` sheet is missing (so the DSS stage never runs) returns with
no warnings regardless of any other degraded condition, and a
primary-stage coercion failure aborts instead of warning (see C2). -/
theorem warnings_only_dss_exception :
    (∀ fg eu reps, (dssStage fg eu reps).2 = []
      ∨ ∃ m, (dssStage fg eu reps).2 = ["Error extracting DSS cells: " ++ m])
    ∧ (∀ w tmpl reps0,
        safe_load_sheet w "5G Info" ["5GInfo", "5G_Info"] = none →
        primaryStage (safe_load_sheet w "Mixed Mode Info"
          ["MixedModeInfo", "Mixed_Mode_Info"]) = Except.ok reps0 →
        ∃ filled counts,
          process_template (some w) (some tmpl) = Except.ok (filled, counts, [])) := by
  constructor
  · intro fg eu reps
    cases fg with
    | none => exact Or.inl (by simp [dssStage])
    | some t =>
      cases hg : pyLookup reps "xx5G_NR_Node_Namexx" with
      | none => exact Or.inl (by simp [dssStage, hg])
      | some g =>
        cases hb : dssBody reps t eu g with
        | ok r => exact Or.inl (by simp [dssStage, hg, hb])
        | error e =>
          rcases e with ⟨r, m⟩
          exact Or.inr ⟨m, by simp [dssStage, hg, hb]⟩
  · intro w tmpl reps0 hfg hp
    have hres : process_template (some w) (some tmpl)
        = Except.ok ((fillAll reps0 tmpl).1, (fillAll reps0 tmpl).2, []) := by
      simp only [process_template, hfg, hp, dssStage]
    exact ⟨_, _, hres⟩

/-- Witness for the amended C9 at a concrete input. -/
theorem warnings_only_dss_witness :
    ∃ filled counts,
      process_template (some [("Mixed Mode Info", mmA)]) (some "T")
        = Except.ok (filled, counts, []) :=
  warnings_only_dss_exception.2 [("Mixed Mode Info", mmA)] "T" repsA (by decide) (by decide)

/-! ## Claim C10 -/

/-- A `5G Info` sheet whose `cellLocalId` cells are NaN: the first
local-ID coercion of the stage raises. -/
def fgBad : DF := ⟨["gNB Name", "DSS", "NRCellDU", "cellLocalId"],
  [[Cell.strVal "G", Cell.strVal "S_66A_1", Cell.strVal "G_N066A_1", Cell.na],
   [Cell.strVal "G", Cell.strVal "S_66B_1", Cell.strVal "G_N066B_1", Cell.na],
   [Cell.strVal "G", Cell.strVal "S_66C_1", Cell.strVal "G_N066C_1", Cell.na]]⟩

/-- C10 (non-atomic DSS stage): whenever the stage body raises, the
returned map is exactly the partially extended map carried at the point
of failure and the exception becomes the single warning; concretely, on
a workbook whose beta cross-reference row is missing from
`eUtran Parameters`, everything inserted before the `iloc[0]` failure —
the band placeholders and alpha's `LTE_cellidA` — remains, the gamma
cell ID and all sector IDs are absent, and `process_template` returns
normally with that partial map and one warning. -/
theorem dss_stage_partial_map :
    (∀ reps t eu g r m, pyLookup reps "xx5G_NR_Node_Namexx" = some g →
      dssBody reps t eu g = Except.error (r, m) →
      dssStage (some t) eu reps = (r, ["Error extracting DSS cells: " ++ m]))
    ∧ pyLookup (dssStage (some fg3) (some eu10) repsA).1 "LTE_cellidA" = some "10"
    ∧ pyLookup (dssStage (some fg3) (some eu10) repsA).1 "N00XA" = some "N066A"
    ∧ pyLookup (dssStage (some fg3) (some eu10) repsA).1 "LTE_cellidC" = none
    ∧ pyLookup (dssStage (some fg3) (some eu10) repsA).1 "xxLTE_SectorCarrier_No_Alphaxx" = none
    ∧ (dssStage (some fg3) (some eu10) repsA).2
        = ["Error extracting DSS cells: single positional indexer is out-of-bounds"]
    ∧ process_template
        (some [("Mixed Mode Info", mmA), ("5G Info", fg3), ("eUtran Parameters", eu10)])
        (some "T")
      = Except.ok ("T", [],
          ["Error extracting DSS cells: single positional indexer is out-of-bounds"]) := by
  refine ⟨?_, by decide, by decide, by decide, by decide, by decide, by decide⟩
  intro reps t eu g r m hg hb
  simp [dssStage, hg, hb]

/-- Witness for C10's universally quantified part at a concrete input
where the first local-ID coercion raises with the map untouched. -/
theorem dss_stage_partial_map_witness :
    dssStage (some fgBad) none [("xx5G_NR_Node_Namexx", "G")]
      = ([("xx5G_NR_Node_Namexx", "G")],
         ["Error extracting DSS cells: invalid literal for int()"]) :=
  dss_stage_partial_map.1 [("xx5G_NR_Node_Namexx", "G")] fgBad none "G"
    [("xx5G_NR_Node_Namexx", "G")] "invalid literal for int()" (by decide) (by decide)

end DSS
